import Mathlib

/-!
Verification of pkg/imagestream/imagestream.go (image-registry).

The definitions below are a shallow embedding of the Go source. Pure helpers
become Lean functions; the per-request caches become explicit state values;
calls to the metadata service become explicit result parameters (the outcome
the transport would have produced); fallible operations return Except.

External collaborators (the k8s structured-error helpers, the quota
classifier, the digest codec and the reference-string parser) are out of
scope per the design document and are modelled at their interface boundary:
the error helpers read the reason field of a structured status, the quota
classifier is an abstract boolean on the error value, and the two parsers are
taken as function parameters.
-/

set_option autoImplicit false

/-! ## Data model (imageapiv1 types, as used by the source) -/

/-- imageapiv1.TagEvent: one tag-history entry. The created field stands for
the creation timestamp used to order events. -/
structure TagEvent where
  dockerImageReference : String
  image : String
  created : Nat
deriving DecidableEq, Repr

/-- imageapiv1.NamedTagEventList: the status history of one tag. -/
structure NamedTagEventList where
  tag : String
  items : List TagEvent
deriving DecidableEq, Repr

/-- imageapiv1.TagImportPolicy. -/
structure TagImportPolicy where
  insecure : Bool
deriving DecidableEq, Repr

/-- imageapiv1.TagReference: one entry of the tag spec. -/
structure TagReference where
  name : String
  importPolicy : TagImportPolicy
deriving DecidableEq, Repr

/-- imageapiv1.ImageStreamStatus. -/
structure ImageStreamStatus where
  dockerImageRepository : String
  publicDockerImageRepository : String
  tags : List NamedTagEventList
deriving DecidableEq, Repr

/-- imageapiv1.ImageStreamSpec. -/
structure ImageStreamSpec where
  tags : List TagReference
deriving DecidableEq, Repr

/-- imageapiv1.ImageStream (the fetched stream record). The Go field
Namespace is spelled nspace because namespace is a Lean keyword. -/
structure ImageStreamObj where
  nspace : String
  name : String
  annotations : List (String × String)
  spec : ImageStreamSpec
  status : ImageStreamStatus
deriving DecidableEq, Repr

/-- imageapiv1.Image: digest-addressed image record. The payload field stands
for all fields other than DockerImageReference (they are carried along
unchanged by the shallow copy in GetImageOfImageStream). -/
structure ImageObj where
  dockerImageReference : String
  payload : Nat
deriving DecidableEq, Repr

/-! ## Errors

Transport-level errors (Go error values returned by the metadata client). A
structured error is a k8s StatusError carrying a status with an HTTP code, a
reason and optional details; anything else is an opaque error value. The
quota classifier quotautil.IsErrorQuotaExceeded is out of scope per the
design document, so it is modelled as an abstract boolean carried on the
error value. -/

/-- metav1.StatusDetails (the fields read by the source). -/
structure StatusDetails where
  kind : String
  name : String
deriving DecidableEq, Repr

/-- metav1.Status (the fields read by the source). details is optional: the
Go field is a nilable pointer. -/
structure KStatus where
  code : Nat
  reason : String
  details : Option StatusDetails
deriving DecidableEq, Repr

/-- A Go error value as observed by this package: either a structured
kerrors.StatusError or any other error. The boolean is the verdict of the
out-of-scope quota classifier on this value. -/
inductive GoError where
  | statusError (status : KStatus) (quotaExceeded : Bool)
  | otherError (quotaExceeded : Bool)
deriving DecidableEq, Repr

/-- The reason of the structured status, or empty for unstructured errors. -/
def GoError.reason : GoError → String
  | .statusError s _ => s.reason
  | .otherError _ => ""

/-- Modelled from the spec: the quota classifier interface
IsQuotaExceeded(error) -> bool (section 6); the classification itself is out
of scope, so the verdict is the flag carried on the error value. -/
def isQuotaExceeded : GoError → Bool
  | .statusError _ q => q
  | .otherError q => q

/-- Modelled from the spec: kerrors.IsNotFound, the structured-error
classifier of the metadata client (the client must surface structured errors
distinguishing not-found from generic failures, section 6). -/
def isNotFoundErr (e : GoError) : Bool := e.reason == "NotFound"

/-- Modelled from the spec: kerrors.IsAlreadyExists. -/
def isAlreadyExistsErr (e : GoError) : Bool := e.reason == "AlreadyExists"

/-- Modelled from the spec: kerrors.IsConflict. -/
def isConflictErr (e : GoError) : Bool := e.reason == "Conflict"

/-- Modelled from the spec: kerrors.IsForbidden. -/
def isForbiddenErr (e : GoError) : Bool := e.reason == "Forbidden"

/-- Modelled from the spec: kerrors.IsUnauthorized. -/
def isUnauthorizedErr (e : GoError) : Bool := e.reason == "Unauthorized"

/-- Modelled from the spec: kerrors.IsNotFound applied to a StatusError whose
status is already in hand (used on line 442 of the source). -/
def isNotFoundStatus (s : KStatus) : Bool := s.reason == "NotFound"

/-! ## Facade error taxonomy -/

/-- The four public error codes of the facade (ErrImageStream*Code). -/
inductive ISError where
  | unknown
  | notFound
  | imageNotFound
  | forbidden
deriving DecidableEq, Repr

/-- The internal codes of the stream getter (ErrImageStreamGetter*Code).
The getter itself lives in another file of the package; per the design
document it reports one of the outcome classes NotFound, Forbidden and
Unknown-error. -/
inductive GetterErrCode where
  | getterNotFound
  | getterForbidden
  | getterUnknown
deriving DecidableEq, Repr

/-- Source lines 538-549: translate an internal getter code into a facade
code; anything that is not NotFound or Forbidden becomes Unknown. -/
def convertImageStreamGetterError : GetterErrCode → ISError
  | .getterNotFound => ISError.notFound
  | .getterForbidden => ISError.forbidden
  | .getterUnknown => ISError.unknown

/-! ## Exists (source lines 245-254)

The memoized outcome of imageStreamGetter.get() is passed in as a parameter:
within one request the getter always reports the same outcome. -/

/-- Source lines 245-254: Exists. Returns the pair (found, error). -/
def ExistsImageStream (streamResult : Except GetterErrCode ImageStreamObj) :
    Bool × Option ISError :=
  match streamResult with
  | .error e =>
    if e = GetterErrCode.getterNotFound then (false, none)
    else (false, some (convertImageStreamGetterError e))
  | .ok _ => (true, none)

/-! ## Facade construction and Clone (source lines 74-107) -/

/-- Modelled from the spec: the memoization cell of cachedImageStreamGetter
(section 4.2; the getter lives in another file of the package). -/
structure StreamGetterState where
  cachedStream : Option ImageStreamObj
deriving DecidableEq, Repr

/-- Modelled from the spec: the per-request memoization of the image getter
(section 4.1; newCachedImageGetter lives in another file of the package).
Each digest maps to the memoized outcome of its first fetch. -/
structure ImageGetterState where
  cache : List (String × Except GoError ImageObj)
deriving Repr

/-- The imageStream struct: identity, transport client (by id) and the two
per-request caches. -/
structure ImageStreamFacade where
  nspace : String
  name : String
  registryOSClient : Nat
  imageClient : ImageGetterState
  imageStreamGetter : StreamGetterState
deriving Repr

/-- Source lines 74-86: New. -/
def New (nspace name : String) (client : Nat) : ImageStreamFacade :=
  { nspace := nspace
    name := name
    registryOSClient := client
    imageClient := { cache := [] }
    imageStreamGetter := { cachedStream := none } }

/-- Source lines 92-107: Clone. Returns the receiver when the identity
matches, otherwise a fresh facade with empty caches and the same client. -/
def Clone (is : ImageStreamFacade) (nspace name : String) : ImageStreamFacade :=
  if is.nspace = nspace ∧ is.name = name then is
  else
    { nspace := nspace
      name := name
      registryOSClient := is.registryOSClient
      imageClient := { cache := [] }
      imageStreamGetter := { cachedStream := none } }

/-! ## ResolveImageID (source lines 133-156) -/

/-- All TagEvents across all tags of the status history that record the
target digest. -/
def matchingEvents (stream : ImageStreamObj) (dgst : String) : List TagEvent :=
  stream.status.tags.flatMap (fun history => history.items.filter (fun e => e.image == dgst))

/-- Modelled from the spec: originutil.ResolveImageID (pkg/origin-common,
not under src/) finds the single TagEvent across all tags whose recorded
digest equals the target; it errors with a structured not-found when there
is no match and with another structured error when the match is ambiguous
(section 4.4 of the design document, ResolveImageID entry). -/
def resolveImageIDInStream (stream : ImageStreamObj) (dgst : String) :
    Except GoError TagEvent :=
  match matchingEvents stream dgst with
  | [e] => Except.ok e
  | [] => Except.error
      (GoError.statusError { code := 404, reason := "NotFound", details := none } false)
  | _ => Except.error
      (GoError.statusError { code := 409, reason := "Conflict", details := none } false)

/-- Source lines 133-156: the facade ResolveImageID. A getter error is
translated; a resolve error becomes ImageNotFound when it is a structured
not-found and Unknown otherwise. -/
def ResolveImageID (streamResult : Except GetterErrCode ImageStreamObj) (dgst : String) :
    Except ISError TagEvent :=
  match streamResult with
  | .error e => Except.error (convertImageStreamGetterError e)
  | .ok stream =>
    match resolveImageIDInStream stream dgst with
    | .ok tagEvent => Except.ok tagEvent
    | .error err =>
      Except.error (if isNotFoundErr err then ISError.imageNotFound else ISError.unknown)

/-! ## TagIsInsecure (source lines 218-243) -/

/-- imageapi.InsecureRepositoryAnnotation. -/
def insecureRepositoryKey : String := "openshift.io/image.insecureRepository"

/-- Go map read with default: stream.Annotations[key] yields the empty
string when the key is absent. -/
def annotationsGet (annotations : List (String × String)) (key : String) : String :=
  (annotations.lookup key).getD ""

/-- Modelled from the spec: originutil.LatestImageTagEvent (pkg/origin-common,
not under src/) locates the most recent TagEvent for the digest across all
tags and returns its tag together with the event (section 4.4, TagIsInsecure
entry). An event strictly more recent than the best one seen so far replaces
it. -/
def latestImageTagEvent (stream : ImageStreamObj) (dgst : String) :
    Option (String × TagEvent) :=
  stream.status.tags.foldl
    (fun acc history =>
      history.items.foldl
        (fun acc2 e =>
          if e.image == dgst then
            match acc2 with
            | none => some (history.tag, e)
            | some (bestTag, best) =>
              if best.created < e.created then some (history.tag, e)
              else some (bestTag, best)
          else acc2)
        acc)
    none

/-- The tag of the most recent TagEvent for the digest, or the empty string
when there is none (the first return value of LatestImageTagEvent). -/
def latestTagName (stream : ImageStreamObj) (dgst : String) : String :=
  match latestImageTagEvent stream dgst with
  | some (tag, _) => tag
  | none => ""

/-- Source lines 218-243: TagIsInsecure. The stream-level insecure
annotation forces true; otherwise an empty tag argument is replaced by the
tag of the most recent TagEvent for the digest, and the resolved tag's
import-policy flag is looked up in the tag spec (false when the tag is
empty or absent from the spec). -/
def TagIsInsecure (streamResult : Except GetterErrCode ImageStreamObj) (tag dgst : String) :
    Except ISError Bool :=
  match streamResult with
  | .error e => Except.error (convertImageStreamGetterError e)
  | .ok stream =>
    if annotationsGet stream.annotations insecureRepositoryKey = "true" then
      Except.ok true
    else
      let tag2 := if tag = "" then latestTagName stream dgst else tag
      if tag2 ≠ "" then
        match stream.spec.tags.find? (fun t => t.name == tag2) with
        | some t => Except.ok t.importPolicy.insecure
        | none => Except.ok false
      else Except.ok false

/-! ## Tags (source lines 378-403)

digest.Parse belongs to the out-of-scope content digest codec, so it is
taken as a function parameter returning none on a parse failure. -/

/-- A Go map assignment m[k] = v on the association-list model of the map:
replace the binding when the key is present, append it otherwise. -/
def mapAssign (m : List (String × String)) (k v : String) : List (String × String) :=
  if m.any (fun p => p.fst == k) then
    m.map (fun p => if p.fst == k then (k, v) else p)
  else m ++ [(k, v)]

/-- Source lines 386-400: the loop of Tags. Tags with an empty history are
skipped; a head digest that fails to parse is logged and skipped; otherwise
the tag is mapped to the parsed head digest. -/
def tagsCore (parseDigest : String → Option String) :
    List NamedTagEventList → List (String × String) → List (String × String)
  | [], m => m
  | history :: rest, m =>
    match history.items with
    | [] => tagsCore parseDigest rest m
    | item :: _ =>
      match parseDigest item.image with
      | none => tagsCore parseDigest rest m
      | some d => tagsCore parseDigest rest (mapAssign m history.tag d)

/-- Source lines 378-403: Tags. -/
def TagsOf (parseDigest : String → Option String)
    (streamResult : Except GetterErrCode ImageStreamObj) :
    Except ISError (List (String × String)) :=
  match streamResult with
  | .error e => Except.error (convertImageStreamGetterError e)
  | .ok stream => Except.ok (tagsCore parseDigest stream.status.tags [])

/-- The parsed digest of the first (most recent) TagEvent of a tag history,
none when the history is empty or the digest string fails to parse. -/
def headDigest (parseDigest : String → Option String) (history : NamedTagEventList) :
    Option String :=
  match history.items with
  | [] => none
  | item :: _ => parseDigest item.image

/-- The map entry a tag history contributes to Tags, if any. -/
def tagEntry (parseDigest : String → Option String) (history : NamedTagEventList) :
    Option (String × String) :=
  (headDigest parseDigest history).map (fun d => (history.tag, d))

/-- The identity digest parser, used by witnesses. -/
def witnessParse (s : String) : Option String := some s

/-! ## Remote-repository resolver (source lines 256-376)

imageapi.ParseDockerImageReference belongs to the out-of-scope
reference-string parser, so it is taken as a function parameter; a parse
failure yields none, which stands for the Go zero value (whose registry
field is empty). -/

/-- The components of a parsed image reference used by this package. -/
structure ParsedRef where
  registry : String
  nspace : String
  name : String
deriving DecidableEq, Repr

/-- Source lines 256-278: getLocalRegistryNames. The status repository is
parsed (a failed parse leaves an empty registry, which is skipped); the
public repository is parsed only when non-empty. -/
def getLocalRegistryNames (parse : String → Option ParsedRef) (stream : ImageStreamObj) :
    List String :=
  let fromPrimary :=
    match parse stream.status.dockerImageRepository with
    | some r => if r.registry ≠ "" then [r.registry] else []
    | none => []
  let fromPublic :=
    if stream.status.publicDockerImageRepository ≠ "" then
      match parse stream.status.publicDockerImageRepository with
      | some r => if r.registry ≠ "" then [r.registry] else []
      | none => []
    else []
  fromPrimary ++ fromPublic

/-- Source lines 282-285: the local reference prefixes
registry/nspace/name@ of a stream, one per local registry hostname. -/
def localPrefixes (parse : String → Option ParsedRef) (stream : ImageStreamObj) :
    List String :=
  (getLocalRegistryNames parse stream).map
    (fun registry => registry ++ "/" ++ stream.nspace ++ "/" ++ stream.name ++ "@")

/-- Go strings.HasPrefix, computed structurally on the character lists so
that concrete instances evaluate. -/
def hasPrefixStr (s pfx : String) : Bool := pfx.data.isPrefixOf s.data

/-- Source lines 280-302: imageStreamHasExternalReferences. True when some
tag-status item reference starts with none of the local prefixes. -/
def imageStreamHasExternalReferences (parse : String → Option ParsedRef)
    (stream : ImageStreamObj) : Bool :=
  stream.status.tags.any (fun tag =>
    tag.items.any (fun item =>
      !((localPrefixes parse stream).any
          (fun pfx => hasPrefixStr item.dockerImageReference pfx))))

/-- A resolved external repository location. -/
structure RemoteRepository where
  registry : String
  nspace : String
  name : String
deriving DecidableEq, Repr

/-- A resolved local image-stream location. -/
structure ImageStreamReference where
  nspace : String
  name : String
deriving DecidableEq, Repr

/-- imageapiv1.ImageBlobReferences: the blob digests of one image. -/
structure ImageBlobReferences where
  config : Option String
  layers : List String
deriving DecidableEq, Repr

/-- imageapiv1.ImageStreamLayers: the blob index, image digest to blob
references. -/
structure ImageStreamLayers where
  images : List (String × ImageBlobReferences)
deriving DecidableEq, Repr

/-- Source lines 304-314: imageBlobReferencesHasBlob. -/
def imageBlobReferencesHasBlob (info : ImageBlobReferences) (dgst : String) : Bool :=
  (match info.config with
   | some c => c == dgst
   | none => false) || info.layers.any (fun layer => layer == dgst)

/-- Modelled from the spec: remoteRepositoriesForImages (another file of
pkg/imagestream, not under src/): each target image digest is resolved
through its TagEvent reference; a local-registry host yields an image stream
reference, any other host a remote repository, and digests with no tag entry
or an unparsable reference are skipped (section 4.3, resolve-for-digests). -/
def remoteRepositoriesForImages (parse : String → Option ParsedRef)
    (stream : ImageStreamObj) (images : List String) :
    List RemoteRepository × List ImageStreamReference :=
  let localNames := getLocalRegistryNames parse stream
  images.foldl
    (fun acc dgst =>
      match matchingEvents stream dgst with
      | [] => acc
      | e :: _ =>
        match parse e.dockerImageReference with
        | none => acc
        | some r =>
          if localNames.contains r.registry then
            (acc.1, acc.2 ++ [{ nspace := r.nspace, name := r.name }])
          else
            (acc.1 ++ [{ registry := r.registry, nspace := r.nspace, name := r.name }],
             acc.2))
    ([], [])

/-- Source lines 321-359: RemoteRepositoriesForBlob. The memoized outcomes
of the getter calls get() and layers() are parameters; the boolean of the
result records whether layers() was consulted at all. -/
def RemoteRepositoriesForBlob (parse : String → Option ParsedRef)
    (streamResult : Except GetterErrCode ImageStreamObj)
    (layersResult : Except GetterErrCode ImageStreamLayers)
    (dgst : String) :
    Except ISError (List RemoteRepository × List ImageStreamReference) × Bool :=
  match streamResult with
  | .error e => (Except.error (convertImageStreamGetterError e), false)
  | .ok stream =>
    if !imageStreamHasExternalReferences parse stream then
      (Except.ok ([], []), false)
    else
      match layersResult with
      | .error e => (Except.error (convertImageStreamGetterError e), true)
      | .ok layers =>
        let images :=
          (layers.images.filter (fun p => imageBlobReferencesHasBlob p.snd dgst)).map
            Prod.fst
        if images.length = 0 then (Except.ok ([], []), true)
        else (Except.ok (remoteRepositoriesForImages parse stream images), true)

/-- A concrete stream record used by witnesses. -/
def witnessStream : ImageStreamObj :=
  { nspace := "ns"
    name := "app"
    annotations := []
    spec := { tags := [] }
    status :=
      { dockerImageRepository := "reg.local/ns/app"
        publicDockerImageRepository := ""
        tags := [] } }

/-- A concrete facade with populated per-request caches, used by the Clone
witness to show the caches survive a matching Clone. -/
def cloneWitnessFacade : ImageStreamFacade :=
  { nspace := "ns"
    name := "app"
    registryOSClient := 7
    imageClient :=
      { cache := [("sha256:aa", Except.ok { dockerImageReference := "r/x/y", payload := 3 })] }
    imageStreamGetter := { cachedStream := some witnessStream } }

/-- A concrete TagEvent used by witnesses. -/
def witnessEvent : TagEvent :=
  { dockerImageReference := "ext.io/a/b@sha256:11", image := "sha256:11", created := 5 }

/-- A concrete stream with one tag history entry, used by witnesses. -/
def witnessTaggedStream : ImageStreamObj :=
  { nspace := "ns"
    name := "app"
    annotations := []
    spec := { tags := [{ name := "latest", importPolicy := { insecure := true } }] }
    status :=
      { dockerImageRepository := ""
        publicDockerImageRepository := ""
        tags := [{ tag := "latest", items := [witnessEvent] }] } }

/-- A concrete stream whose insecure annotation is set, used by witnesses. -/
def witnessAnnotatedStream : ImageStreamObj :=
  { witnessTaggedStream with
    annotations := [(insecureRepositoryKey, "true")] }

/-! ## Image getter and GetImageOfImageStream (source lines 109-202)

The transport fetch of an image record is a function parameter; the
per-request memoization state is threaded explicitly. -/

/-- Modelled from the spec: the Get operation of the cached image getter
(section 4.1; newCachedImageGetter lives in another file of the package).
The first call for a digest fetches and memoizes the outcome, success or
failure; later calls return the memoized outcome unchanged. -/
def cachedImageGetterGet (fetch : String → Except GoError ImageObj)
    (st : ImageGetterState) (dgst : String) :
    Except GoError ImageObj × ImageGetterState :=
  match st.cache.lookup dgst with
  | some r => (r, st)
  | none =>
    let r := fetch dgst
    (r, { cache := (dgst, r) :: st.cache })

/-- Source lines 109-129: getImage. A transport not-found becomes
ImageNotFound, any other failure Unknown. -/
def getImage (fetch : String → Except GoError ImageObj)
    (st : ImageGetterState) (dgst : String) :
    Except ISError ImageObj × ImageGetterState :=
  match cachedImageGetterGet fetch st dgst with
  | (.ok image, st2) => (Except.ok image, st2)
  | (.error e, st2) =>
    (Except.error (if isNotFoundErr e then ISError.imageNotFound else ISError.unknown), st2)

/-- Source lines 169-181: getStoredImageOfImageStream. Resolves the
TagEvent, then fetches the image record by the same digest. -/
def getStoredImageOfImageStream (streamResult : Except GetterErrCode ImageStreamObj)
    (fetch : String → Except GoError ImageObj)
    (st : ImageGetterState) (dgst : String) :
    Except ISError (ImageObj × TagEvent) × ImageGetterState :=
  match ResolveImageID streamResult dgst with
  | .error e => (Except.error e, st)
  | .ok tagEvent =>
    match getImage fetch st dgst with
    | (.ok image, st2) => (Except.ok (image, tagEvent), st2)
    | (.error e, st2) => (Except.error e, st2)

/-- Source lines 191-202: GetImageOfImageStream. A shallow copy of the
fetched record is returned with its reference overwritten by the TagEvent
reference; the cached record itself is left untouched. -/
def GetImageOfImageStream (streamResult : Except GetterErrCode ImageStreamObj)
    (fetch : String → Except GoError ImageObj)
    (st : ImageGetterState) (dgst : String) :
    Except ISError ImageObj × ImageGetterState :=
  match getStoredImageOfImageStream streamResult fetch st dgst with
  | (.error e, st2) => (Except.error e, st2)
  | (.ok (image, tagEvent), st2) =>
    (Except.ok { image with dockerImageReference := tagEvent.dockerImageReference }, st2)

/-- A reference parser for witnesses: knows the one local repository. -/
def witnessRefParse (s : String) : Option ParsedRef :=
  if s = "reg.local/ns/app" then
    some { registry := "reg.local", nspace := "ns", name := "app" }
  else none

/-- A stream whose only tag-status item points into the local registry,
used by the C6 witness. -/
def witnessLocalStream : ImageStreamObj :=
  { nspace := "ns"
    name := "app"
    annotations := []
    spec := { tags := [] }
    status :=
      { dockerImageRepository := "reg.local/ns/app"
        publicDockerImageRepository := ""
        tags := [{ tag := "latest"
                   items := [{ dockerImageReference := "reg.local/ns/app@sha256:11"
                               image := "sha256:11", created := 1 }] }] } }

/-! ## CreateImageStreamMapping (source lines 405-506)

The three transport calls of the publish protocol (first mapping create,
stream provisioning via the user client, second mapping create) are
modelled by a world recording the outcome each call would produce, none
standing for a nil error. The function returns the outcome together with
the trace of calls it performed, so that the bounded-retry structure is
part of the statement. -/

/-- Go strings.ToLower restricted to ASCII, computed structurally (the kind
strings compared by the source are ASCII). -/
def charToLower (c : Char) : Char :=
  if 65 ≤ c.toNat ∧ c.toNat ≤ 90 then Char.ofNat (c.toNat + 32) else c

/-- strings.ToLower on the character list. -/
def strToLower (s : String) : String := { data := s.data.map charToLower }

/-- How the first mapping-create failure is classified by source lines
417-459. nilPanic marks the nil dereference of status.Details on line 442:
Go evaluates strings.ToLower(status.Details.Kind) whenever IsNotFound holds,
also when Details is nil. -/
inductive FirstCreateClass where
  | success
  | quotaForbidden
  | namespaceForbidden
  | streamMissing
  | otherUnknown
  | nilPanic
deriving DecidableEq, Repr

/-- Source lines 450-459: the isValidKind test and the final guard. The
stream-missing classification requires details kind imagestreammappings
(case-sensitive here), status code 404 and details name equal to the stream
name; everything else is Unknown. -/
def classifyValidKind (isName : String) (status : KStatus) : FirstCreateClass :=
  match status.details with
  | some d =>
    if d.kind == "imagestreammappings" && (status.code == 404) && (d.name == isName) then
      FirstCreateClass.streamMissing
    else FirstCreateClass.otherUnknown
  | none => FirstCreateClass.otherUnknown

/-- Source lines 417-459: classification of the first mapping-create
outcome. The branch order follows the source: nil error, quota, non-status
error, the namespaces test (which dereferences status.Details under
IsNotFound), then the isValidKind guard. -/
def classifyFirstCreate (isName : String) (result : Option GoError) : FirstCreateClass :=
  match result with
  | none => FirstCreateClass.success
  | some err =>
    if isQuotaExceeded err then FirstCreateClass.quotaForbidden
    else
      match err with
      | .otherError _ => FirstCreateClass.otherUnknown
      | .statusError status _ =>
        if isNotFoundStatus status then
          match status.details with
          | none => FirstCreateClass.nilPanic
          | some d =>
            if strToLower d.kind == "namespaces" then FirstCreateClass.namespaceForbidden
            else classifyValidKind isName status
        else classifyValidKind isName status

/-- The transport calls CreateImageStreamMapping can issue: a mapping create
via the registry client, a stream create via the caller-supplied user client,
and the injection of the provisioned stream into the stream-getter cache. -/
inductive CallEvent where
  | createMapping
  | createStream (nspace name : String)
  | cacheStream (name : String)
deriving DecidableEq, Repr

/-- The outcome of CreateImageStreamMapping: nil, a facade error, or the
nil-pointer dereference of line 442. -/
inductive MappingOutcome where
  | ok
  | err (code : ISError)
  | nilDeref
deriving DecidableEq, Repr

/-- Source lines 483-505: cache injection and the single retry of the
mapping create; a second failure is terminal, Forbidden on quota and
Unknown otherwise. -/
def retryAfterProvision (nspace isName : String) (second : Option GoError) :
    MappingOutcome × List CallEvent :=
  (match second with
   | none => MappingOutcome.ok
   | some e =>
     if isQuotaExceeded e then MappingOutcome.err ISError.forbidden
     else MappingOutcome.err ISError.unknown,
   [CallEvent.createStream nspace isName, CallEvent.cacheStream isName,
    CallEvent.createMapping])

/-- Source lines 461-505: the provisioning attempt via the user client and
what follows it. AlreadyExists and Conflict count as success; Forbidden,
Unauthorized and quota-exceeded are denied; any other failure is Unknown. -/
def provisionRetry (nspace isName : String) (provision second : Option GoError) :
    MappingOutcome × List CallEvent :=
  match provision with
  | none => retryAfterProvision nspace isName second
  | some e =>
    if isAlreadyExistsErr e || isConflictErr e then
      retryAfterProvision nspace isName second
    else if isForbiddenErr e || isUnauthorizedErr e || isQuotaExceeded e then
      (MappingOutcome.err ISError.forbidden, [CallEvent.createStream nspace isName])
    else
      (MappingOutcome.err ISError.unknown, [CallEvent.createStream nspace isName])

/-- The outcomes the transport would produce for the calls of one
CreateImageStreamMapping run. -/
structure MappingWorld where
  firstCreate : Option GoError
  provision : Option GoError
  secondCreate : Option GoError
deriving DecidableEq, Repr

/-- Source lines 405-506: CreateImageStreamMapping, returning the outcome
and the trace of transport calls. -/
def CreateImageStreamMapping (nspace isName : String) (w : MappingWorld) :
    MappingOutcome × List CallEvent :=
  match classifyFirstCreate isName w.firstCreate with
  | .success => (MappingOutcome.ok, [CallEvent.createMapping])
  | .quotaForbidden => (MappingOutcome.err ISError.forbidden, [CallEvent.createMapping])
  | .namespaceForbidden => (MappingOutcome.err ISError.forbidden, [CallEvent.createMapping])
  | .otherUnknown => (MappingOutcome.err ISError.unknown, [CallEvent.createMapping])
  | .nilPanic => (MappingOutcome.nilDeref, [CallEvent.createMapping])
  | .streamMissing =>
    let rest := provisionRetry nspace isName w.provision w.secondCreate
    (rest.1, CallEvent.createMapping :: rest.2)

/-- The provisioning outcomes counted as success by source line 467: nil,
AlreadyExists or Conflict. -/
def provisionOkB : Option GoError → Bool
  | none => true
  | some e => isAlreadyExistsErr e || isConflictErr e

/-- The provisioning outcomes denied by source line 469: Forbidden,
Unauthorized or quota-exceeded, unless already counted as success. -/
def provisionDeniedB : Option GoError → Bool
  | none => false
  | some e =>
    !(isAlreadyExistsErr e || isConflictErr e) &&
      (isForbiddenErr e || isUnauthorizedErr e || isQuotaExceeded e)

/-- The unambiguous stream-missing error shape for a given stream name. -/
def streamMissingErr (isName : String) : GoError :=
  GoError.statusError
    { code := 404
      reason := "NotFound"
      details := some { kind := "imagestreammappings", name := isName } }
    false

/-- The world of the C2 witness: stream missing on the first create, then
everything succeeds. -/
def witnessMappingWorld : MappingWorld :=
  { firstCreate := some (streamMissingErr "app")
    provision := none
    secondCreate := none }

/-- A concrete image record used by the C4 witness: its stored reference
differs from the TagEvent reference. -/
def witnessImage : ImageObj := { dockerImageReference := "orig-ref", payload := 9 }

/-- A concrete image fetch used by the C4 witness. -/
def witnessFetch (dgst : String) : Except GoError ImageObj :=
  if dgst = "sha256:11" then Except.ok witnessImage
  else Except.error (GoError.otherError false)

/-- The image record GetImageOfImageStream returns in the C4 witness: the
fetched record with the TagEvent reference substituted. -/
def witnessReturnedImage : ImageObj :=
  { dockerImageReference := "ext.io/a/b@sha256:11", payload := 9 }

/-- The image-getter state after the C4 witness call: the original record is
memoized unchanged. -/
def witnessState2 : ImageGetterState :=
  { cache := [("sha256:11", Except.ok witnessImage)] }

/-! ## Theorems -/

/-- C5: ExistsImageStream returns (true, no error) exactly when the getter
resolved the stream; a getter NotFound becomes (false, no error); a getter
Forbidden becomes (false, Forbidden); any other getter error becomes
(false, Unknown), i.e. the translated facade-level error. -/
theorem existsImageStream_spec (r : Except GetterErrCode ImageStreamObj) :
    (ExistsImageStream r = (true, none) ↔ ∃ s, r = Except.ok s) ∧
    (ExistsImageStream r = (false, none) ↔ r = Except.error GetterErrCode.getterNotFound) ∧
    (r = Except.error GetterErrCode.getterForbidden →
      ExistsImageStream r = (false, some ISError.forbidden)) ∧
    (∀ e, r = Except.error e → e ≠ GetterErrCode.getterNotFound →
      ExistsImageStream r = (false, some (convertImageStreamGetterError e))) := by
  refine ⟨?_, ?_, ?_, ?_⟩
  · cases r with
    | ok s => simp [ExistsImageStream]
    | error e =>
      cases e <;> simp [ExistsImageStream, convertImageStreamGetterError]
  · cases r with
    | ok s => simp [ExistsImageStream]
    | error e =>
      cases e <;> simp [ExistsImageStream, convertImageStreamGetterError]
  · intro h
    subst h
    simp [ExistsImageStream, convertImageStreamGetterError]
  · intro e h hne
    subst h
    cases e with
    | getterNotFound => exact absurd rfl hne
    | getterForbidden => simp [ExistsImageStream, convertImageStreamGetterError]
    | getterUnknown => simp [ExistsImageStream, convertImageStreamGetterError]

/-- Witness for C5: the theorem applied at the three concrete getter
outcomes. -/
theorem existsImageStream_spec_witness :
    ExistsImageStream (Except.error GetterErrCode.getterForbidden) =
      (false, some ISError.forbidden) ∧
    ExistsImageStream (Except.error GetterErrCode.getterUnknown) =
      (false, some ISError.unknown) :=
  ⟨(existsImageStream_spec (Except.error GetterErrCode.getterForbidden)).2.2.1 rfl,
   (existsImageStream_spec (Except.error GetterErrCode.getterUnknown)).2.2.2
     GetterErrCode.getterUnknown rfl (by decide)⟩

/-- C10: Clone called with the facade identity returns the receiver itself,
caches included; called with a different identity it builds a fresh facade
with empty caches sharing the same transport client, i.e. exactly what New
builds for that identity and client. -/
theorem clone_spec (is : ImageStreamFacade) (nspace name : String) :
    (is.nspace = nspace ∧ is.name = name → Clone is nspace name = is) ∧
    (¬(is.nspace = nspace ∧ is.name = name) →
      Clone is nspace name = New nspace name is.registryOSClient) := by
  constructor
  · intro h
    simp [Clone, h]
  · intro h
    simp [Clone, New, h]

/-- Witness for C10: a facade with populated caches is returned unchanged
when re-targeted to its own identity, and rebuilt fresh otherwise. -/
theorem clone_spec_witness :
    Clone cloneWitnessFacade "ns" "app" = cloneWitnessFacade ∧
    Clone cloneWitnessFacade "ns" "other" = New "ns" "other" 7 :=
  ⟨(clone_spec cloneWitnessFacade "ns" "app").1 ⟨rfl, rfl⟩,
   (clone_spec cloneWitnessFacade "ns" "other").2 (by intro h; exact absurd h.2 (by decide))⟩

/-- C7: ResolveImageID returns a TagEvent exactly when exactly one TagEvent
across all tags of the status history records the target digest; zero
matches yield an ImageNotFound error, and two or more matches yield an
Unknown error, never an arbitrary pick. -/
theorem resolveImageID_spec (stream : ImageStreamObj) (dgst : String) :
    (matchingEvents stream dgst = [] →
      ResolveImageID (Except.ok stream) dgst = Except.error ISError.imageNotFound) ∧
    (∀ ev, matchingEvents stream dgst = [ev] →
      ResolveImageID (Except.ok stream) dgst = Except.ok ev) ∧
    (2 ≤ (matchingEvents stream dgst).length →
      ResolveImageID (Except.ok stream) dgst = Except.error ISError.unknown) ∧
    (∀ ev, ResolveImageID (Except.ok stream) dgst = Except.ok ev →
      matchingEvents stream dgst = [ev]) := by
  refine ⟨?_, ?_, ?_, ?_⟩
  · intro h
    simp [ResolveImageID, resolveImageIDInStream, h, isNotFoundErr, GoError.reason]
  · intro ev h
    simp [ResolveImageID, resolveImageIDInStream, h]
  · intro h
    rcases hm : matchingEvents stream dgst with _ | ⟨e, rest⟩
    · rw [hm] at h; simp at h
    · rcases rest with _ | ⟨f, rest2⟩
      · rw [hm] at h; simp at h
      · simp [ResolveImageID, resolveImageIDInStream, hm, isNotFoundErr, GoError.reason]
  · intro ev h
    rcases hm : matchingEvents stream dgst with _ | ⟨e, rest⟩
    · simp [ResolveImageID, resolveImageIDInStream, hm, isNotFoundErr, GoError.reason] at h
    · rcases rest with _ | ⟨f, rest2⟩
      · simp [ResolveImageID, resolveImageIDInStream, hm] at h
        rw [h]
      · simp [ResolveImageID, resolveImageIDInStream, hm, isNotFoundErr, GoError.reason] at h

/-- Witness for C7: one matching event resolves to that event. -/
theorem resolveImageID_spec_witness :
    ResolveImageID (Except.ok witnessTaggedStream) "sha256:11" = Except.ok witnessEvent :=
  (resolveImageID_spec witnessTaggedStream "sha256:11").2.1 witnessEvent (by decide)

/-- C3: TagIsInsecure returns true whenever the stream-level insecure
annotation is set, regardless of tag; with the annotation absent, an empty
tag argument is replaced by the tag of the most recent TagEvent for the
digest; the resolved tag's import-policy flag from the tag spec is returned,
and false is returned when no tag resolves or the tag is absent from the
spec. -/
theorem tagIsInsecure_spec (stream : ImageStreamObj) (tag dgst : String) :
    (annotationsGet stream.annotations insecureRepositoryKey = "true" →
      TagIsInsecure (Except.ok stream) tag dgst = Except.ok true) ∧
    (annotationsGet stream.annotations insecureRepositoryKey ≠ "true" →
      TagIsInsecure (Except.ok stream) "" dgst =
        TagIsInsecure (Except.ok stream) (latestTagName stream dgst) dgst) ∧
    (annotationsGet stream.annotations insecureRepositoryKey ≠ "true" → tag ≠ "" →
      TagIsInsecure (Except.ok stream) tag dgst =
        Except.ok
          (match stream.spec.tags.find? (fun t => t.name == tag) with
           | some t => t.importPolicy.insecure
           | none => false)) ∧
    (annotationsGet stream.annotations insecureRepositoryKey ≠ "true" →
      latestTagName stream dgst = "" →
      TagIsInsecure (Except.ok stream) "" dgst = Except.ok false) := by
  refine ⟨?_, ?_, ?_, ?_⟩
  · intro h
    simp [TagIsInsecure, h]
  · intro h
    by_cases hl : latestTagName stream dgst = ""
    · simp [TagIsInsecure, h, hl]
    · simp [TagIsInsecure, h, hl]
  · intro h htag
    simp [TagIsInsecure, h, htag]
    cases hf : stream.spec.tags.find? (fun t => t.name == tag) <;> simp [hf]
  · intro h hl
    simp [TagIsInsecure, h, hl]

/-- Witness for C3: the annotated stream is insecure for any tag, and the
known tag latest honors its import-policy flag. -/
theorem tagIsInsecure_spec_witness :
    TagIsInsecure (Except.ok witnessAnnotatedStream) "any" "sha256:11" = Except.ok true ∧
    TagIsInsecure (Except.ok witnessTaggedStream) "latest" "sha256:11" = Except.ok true :=
  ⟨(tagIsInsecure_spec witnessAnnotatedStream "any" "sha256:11").1 (by decide),
   ((tagIsInsecure_spec witnessTaggedStream "latest" "sha256:11").2.2.1 (by decide)
      (by decide)).trans rfl⟩

/-- Helper for C8: with pairwise-distinct tag names and an accumulator whose
keys avoid the remaining tags, the Tags loop appends one entry per
contributing history. -/
theorem tagsCore_append (parseDigest : String → Option String) (l : List NamedTagEventList)
    (m : List (String × String))
    (hdis : ∀ p ∈ m, ∀ h ∈ l, p.fst ≠ h.tag)
    (hnd : (l.map NamedTagEventList.tag).Nodup) :
    tagsCore parseDigest l m = m ++ l.filterMap (tagEntry parseDigest) := by
  induction l generalizing m with
  | nil => simp [tagsCore]
  | cons h rest ih =>
    obtain ⟨hnotin, hnd'⟩ := List.nodup_cons.mp hnd
    have hdis' : ∀ p ∈ m, ∀ h' ∈ rest, p.fst ≠ h'.tag := by
      intro p hp h' hh'
      exact hdis p hp h' (List.mem_cons_of_mem _ hh')
    cases hi : h.items with
    | nil =>
      rw [show tagsCore parseDigest (h :: rest) m = tagsCore parseDigest rest m by
            simp [tagsCore, hi],
          List.filterMap_cons,
          show tagEntry parseDigest h = none by simp [tagEntry, headDigest, hi]]
      exact ih m hdis' hnd'
    | cons item tail =>
      cases hp : parseDigest item.image with
      | none =>
        rw [show tagsCore parseDigest (h :: rest) m = tagsCore parseDigest rest m by
              simp [tagsCore, hi, hp],
            List.filterMap_cons,
            show tagEntry parseDigest h = none by simp [tagEntry, headDigest, hi, hp]]
        exact ih m hdis' hnd'
      | some d =>
        have hany : m.any (fun p => p.fst == h.tag) = false := by
          rw [List.any_eq_false]
          intro p hpm
          simpa using hdis p hpm h (List.mem_cons_self _ _)
        have hassign : mapAssign m h.tag d = m ++ [(h.tag, d)] := by
          simp [mapAssign, hany]
        have hdis2 : ∀ p ∈ m ++ [(h.tag, d)], ∀ h' ∈ rest, p.fst ≠ h'.tag := by
          intro p hpm h' hh'
          rcases List.mem_append.mp hpm with hin | hin
          · exact hdis' p hin h' hh'
          · have hp2 : p = (h.tag, d) := by simpa using hin
            subst hp2
            intro hcontra
            apply hnotin
            rw [show h.tag = h'.tag from hcontra]
            exact List.mem_map_of_mem NamedTagEventList.tag hh'
        rw [show tagsCore parseDigest (h :: rest) m =
              tagsCore parseDigest rest (mapAssign m h.tag d) by simp [tagsCore, hi, hp],
            hassign, ih (m ++ [(h.tag, d)]) hdis2 hnd',
            List.filterMap_cons,
            show tagEntry parseDigest h = some (h.tag, d) by
              simp [tagEntry, headDigest, hi, hp]]
        simp

/-- Helper for C8: lookup in the per-history entry list, with pairwise
distinct tag names. -/
theorem lookup_tagEntries (parseDigest : String → Option String)
    (l : List NamedTagEventList)
    (hnd : (l.map NamedTagEventList.tag).Nodup) (t d : String) :
    (l.filterMap (tagEntry parseDigest)).lookup t = some d ↔
      ∃ h ∈ l, h.tag = t ∧ headDigest parseDigest h = some d := by
  induction l with
  | nil => simp
  | cons h rest ih =>
    obtain ⟨hnotin, hnd'⟩ := List.nodup_cons.mp hnd
    cases hh : headDigest parseDigest h with
    | none =>
      rw [List.filterMap_cons, show tagEntry parseDigest h = none by simp [tagEntry, hh],
        ih hnd']
      constructor
      · rintro ⟨h', hmem, htag, hd⟩
        exact ⟨h', List.mem_cons_of_mem _ hmem, htag, hd⟩
      · rintro ⟨h', hmem, htag, hd⟩
        rcases List.mem_cons.mp hmem with heq | hin
        · subst heq
          rw [hh] at hd
          exact absurd hd (by simp)
        · exact ⟨h', hin, htag, hd⟩
    | some d0 =>
      rw [List.filterMap_cons,
        show tagEntry parseDigest h = some (h.tag, d0) by simp [tagEntry, hh]]
      by_cases hkt : h.tag = t
      · subst hkt
        simp only [List.lookup, beq_self_eq_true]
        constructor
        · intro hd
          have : d0 = d := by simpa using hd
          exact ⟨h, List.mem_cons_self _ _, rfl, this ▸ hh⟩
        · rintro ⟨h', hmem, htag, hd⟩
          rcases List.mem_cons.mp hmem with heq | hin
          · subst heq
            rw [hh] at hd
            simpa using hd
          · exact absurd (htag ▸ List.mem_map_of_mem NamedTagEventList.tag hin) hnotin
      · have hbeq : (t == h.tag) = false :=
          beq_eq_false_iff_ne.mpr (fun h2 => hkt h2.symm)
        simp only [List.lookup, hbeq]
        rw [ih hnd']
        constructor
        · rintro ⟨h', hmem, htag, hd⟩
          exact ⟨h', List.mem_cons_of_mem _ hmem, htag, hd⟩
        · rintro ⟨h', hmem, htag, hd⟩
          rcases List.mem_cons.mp hmem with heq | hin
          · subst heq
            exact absurd htag hkt
          · exact ⟨h', hin, htag, hd⟩

/-- C8: for a stream whose tag names are pairwise distinct, Tags returns a
map in which a tag t is bound to digest d exactly when t has a history whose
first (most recent) TagEvent parses to d; tags with an empty history and
tags whose head digest fails to parse are absent, without an error. -/
theorem tags_spec (parseDigest : String → Option String) (stream : ImageStreamObj)
    (hnd : (stream.status.tags.map NamedTagEventList.tag).Nodup) :
    ∃ m, TagsOf parseDigest (Except.ok stream) = Except.ok m ∧
      ∀ t d, (m.lookup t = some d ↔
        ∃ h ∈ stream.status.tags, h.tag = t ∧ headDigest parseDigest h = some d) := by
  refine ⟨tagsCore parseDigest stream.status.tags [], rfl, ?_⟩
  intro t d
  rw [tagsCore_append parseDigest stream.status.tags [] (by simp) hnd, List.nil_append]
  exact lookup_tagEntries parseDigest stream.status.tags hnd t d

/-- Witness for C8: the witness stream enumerates its single valid tag. -/
theorem tags_spec_witness :
    ∃ m, TagsOf witnessParse (Except.ok witnessTaggedStream) = Except.ok m ∧
      m.lookup "latest" = some "sha256:11" := by
  obtain ⟨m, hm, hiff⟩ := tags_spec witnessParse witnessTaggedStream (by decide)
  refine ⟨m, hm, (hiff "latest" "sha256:11").mpr ?_⟩
  exact ⟨{ tag := "latest", items := [witnessEvent] }, by decide, rfl, by decide⟩

/-- C6: the has-external-references test is false exactly when every
tag-status item reference starts with one of the local prefixes
registry/nspace/name@ built from the stream's local registry hostnames; and
RemoteRepositoriesForBlob on a stream with no external references returns
empty results without consulting layers() (the boolean of the result is the
layers-fetch indicator). -/
theorem hasExternalReferences_spec (parse : String → Option ParsedRef)
    (stream : ImageStreamObj)
    (layersResult : Except GetterErrCode ImageStreamLayers) (dgst : String) :
    (imageStreamHasExternalReferences parse stream = false ↔
      ∀ tag ∈ stream.status.tags, ∀ item ∈ tag.items,
        ∃ pfx ∈ localPrefixes parse stream,
          hasPrefixStr item.dockerImageReference pfx = true) ∧
    (imageStreamHasExternalReferences parse stream = false →
      RemoteRepositoriesForBlob parse (Except.ok stream) layersResult dgst =
        (Except.ok ([], []), false)) := by
  constructor
  · simp [imageStreamHasExternalReferences, List.any_eq_false, List.any_eq_true]
  · intro h
    simp [RemoteRepositoriesForBlob, h]

/-- Witness for C6: a stream whose single item is local yields empty
results with no layers fetch, even when a layers fetch would fail. -/
theorem hasExternalReferences_spec_witness :
    RemoteRepositoriesForBlob witnessRefParse (Except.ok witnessLocalStream)
      (Except.error GetterErrCode.getterUnknown) "sha256:11" =
      (Except.ok ([], []), false) :=
  (hasExternalReferences_spec witnessRefParse witnessLocalStream
    (Except.error GetterErrCode.getterUnknown) "sha256:11").2 (by decide)

/-- C4: a successful GetImageOfImageStream returns a copy of the fetched
record whose reference string equals the matching TagEvent reference, while
the cache keeps the original record unchanged: a subsequent independent
fetch of the same digest (getImage on the resulting state) observes the
original record with its original reference string. -/
theorem getImageOfImageStream_spec (stream : ImageStreamObj)
    (fetch : String → Except GoError ImageObj)
    (st : ImageGetterState) (dgst : String) (img : ImageObj) (st2 : ImageGetterState)
    (h : GetImageOfImageStream (Except.ok stream) fetch st dgst = (Except.ok img, st2)) :
    ∃ ev orig,
      matchingEvents stream dgst = [ev] ∧
      img = { orig with dockerImageReference := ev.dockerImageReference } ∧
      img.dockerImageReference = ev.dockerImageReference ∧
      (st.cache.lookup dgst = some (Except.ok orig) ∧ st2 = st ∨
        st.cache.lookup dgst = none ∧ fetch dgst = Except.ok orig ∧
          st2 = { cache := (dgst, Except.ok orig) :: st.cache }) ∧
      getImage fetch st2 dgst = (Except.ok orig, st2) := by
  rcases hm : matchingEvents stream dgst with _ | ⟨e0, rest⟩
  · simp [GetImageOfImageStream, getStoredImageOfImageStream, ResolveImageID,
      resolveImageIDInStream, hm] at h
  · rcases rest with _ | ⟨f0, rest2⟩
    · have hres : ResolveImageID (Except.ok stream) dgst = Except.ok e0 := by
        simp [ResolveImageID, resolveImageIDInStream, hm]
      rcases hc : st.cache.lookup dgst with _ | r
      · rcases hf : fetch dgst with e | orig
        · simp [GetImageOfImageStream, getStoredImageOfImageStream, hres, getImage,
            cachedImageGetterGet, hc, hf] at h
        · simp [GetImageOfImageStream, getStoredImageOfImageStream, hres, getImage,
            cachedImageGetterGet, hc, hf] at h
          obtain ⟨h1, h2⟩ := h
          refine ⟨e0, orig, rfl, h1.symm, ?_, Or.inr ⟨rfl, rfl, h2.symm⟩, ?_⟩
          · rw [← h1]
          · rw [← h2]
            simp [getImage, cachedImageGetterGet, List.lookup]
      · rcases r with e | orig
        · simp [GetImageOfImageStream, getStoredImageOfImageStream, hres, getImage,
            cachedImageGetterGet, hc] at h
        · simp [GetImageOfImageStream, getStoredImageOfImageStream, hres, getImage,
            cachedImageGetterGet, hc] at h
          obtain ⟨h1, h2⟩ := h
          refine ⟨e0, orig, rfl, h1.symm, ?_, Or.inl ⟨rfl, h2.symm⟩, ?_⟩
          · rw [← h1]
          · rw [← h2]
            simp [getImage, cachedImageGetterGet, hc]
    · have hres : ResolveImageID (Except.ok stream) dgst =
          Except.error ISError.unknown := by
        simp [ResolveImageID, resolveImageIDInStream, hm, isNotFoundErr, GoError.reason]
      simp [GetImageOfImageStream, getStoredImageOfImageStream, hres] at h

/-- Witness for C4: the witness stream and fetch produce the substituted
copy while the memoized record keeps the original reference. -/
theorem getImageOfImageStream_spec_witness :
    ∃ ev orig,
      matchingEvents witnessTaggedStream "sha256:11" = [ev] ∧
      witnessReturnedImage.dockerImageReference = ev.dockerImageReference ∧
      getImage witnessFetch witnessState2 "sha256:11" = (Except.ok orig, witnessState2) := by
  obtain ⟨ev, orig, h1, _, h3, _, h5⟩ :=
    getImageOfImageStream_spec witnessTaggedStream witnessFetch { cache := [] } "sha256:11"
      witnessReturnedImage witnessState2 rfl
  exact ⟨ev, orig, h1, h3, h5⟩

/-- Supporting fact (not tied to a single claim): on error shapes that carry
a details record, or are not structured not-founds, the classification of
the first mapping-create failure is exactly the one stated in the design
document. -/
theorem classifyFirstCreate_cases (isName : String) :
    (classifyFirstCreate isName none = FirstCreateClass.success) ∧
    (∀ err, isQuotaExceeded err = true →
      classifyFirstCreate isName (some err) = FirstCreateClass.quotaForbidden) ∧
    (∀ q, classifyFirstCreate isName (some (GoError.otherError q)) =
      (if q then FirstCreateClass.quotaForbidden else FirstCreateClass.otherUnknown)) ∧
    (∀ status d, isQuotaExceeded (GoError.statusError status false) = false →
      status.details = some d →
      classifyFirstCreate isName (some (GoError.statusError status false)) =
        (if isNotFoundStatus status && (strToLower d.kind == "namespaces") then
          FirstCreateClass.namespaceForbidden
        else if d.kind == "imagestreammappings" && (status.code == 404) &&
            (d.name == isName) then
          FirstCreateClass.streamMissing
        else FirstCreateClass.otherUnknown)) := by
  refine ⟨rfl, ?_, ?_, ?_⟩
  · intro err hq
    cases err with
    | statusError s q => cases q with
      | true => simp [classifyFirstCreate, isQuotaExceeded]
      | false => simp [isQuotaExceeded] at hq
    | otherError q => cases q with
      | true => simp [classifyFirstCreate, isQuotaExceeded]
      | false => simp [isQuotaExceeded] at hq
  · intro q
    cases q <;> simp [classifyFirstCreate, isQuotaExceeded]
  · intro status d _ hd
    cases hnf : isNotFoundStatus status with
    | true =>
      cases hns : strToLower d.kind == "namespaces" with
      | true => simp [classifyFirstCreate, isQuotaExceeded, hnf, hd, hns]
      | false => simp [classifyFirstCreate, classifyValidKind, isQuotaExceeded, hnf, hd, hns]
    | false => simp [classifyFirstCreate, classifyValidKind, isQuotaExceeded, hnf, hd]

/-- C1: the classification of the first mapping-create failure is NOT total
on the reachable error shapes: a structured StatusError whose reason is
NotFound but which carries no details record makes line 442 of the source
dereference a nil pointer (modelled as nilPanic) instead of yielding the
Unknown code the claim requires for every shape outside the three listed
patterns. -/
theorem createMapping_firstFailure_nilPanic :
    classifyFirstCreate "app"
      (some (GoError.statusError
        { code := 404, reason := "NotFound", details := none } false)) =
      FirstCreateClass.nilPanic ∧
    FirstCreateClass.nilPanic ≠ FirstCreateClass.otherUnknown :=
  ⟨rfl, by decide⟩

/-- C9: CreateImageStreamMapping does not return a facade error code for
every reachable first-create failure: on a detail-less structured not-found
it crashes (nil dereference) rather than returning ok or any facade code. -/
theorem createImageStreamMapping_nilPanic :
    CreateImageStreamMapping "ns" "pipeline"
      { firstCreate := some (GoError.statusError
          { code := 404, reason := "NotFound", details := none } false)
        provision := none
        secondCreate := none } =
      (MappingOutcome.nilDeref, [CallEvent.createMapping]) ∧
    (∀ c : ISError, MappingOutcome.nilDeref ≠ MappingOutcome.err c) ∧
    MappingOutcome.nilDeref ≠ MappingOutcome.ok := by
  refine ⟨rfl, ?_, ?_⟩
  · intro c hcon
    exact MappingOutcome.noConfusion hcon
  · intro hcon
    exact MappingOutcome.noConfusion hcon

/-- C2: on a stream-missing first failure, CreateImageStreamMapping issues
exactly one provisioning attempt via the user client; when provisioning
succeeds (nil, AlreadyExists or Conflict) it injects the provisioned stream
into the stream-getter cache and retries the mapping create exactly once,
the second failure being terminal (Forbidden on quota, Unknown otherwise);
a denied provisioning (Forbidden, Unauthorized, quota) yields Forbidden and
any other provisioning failure yields Unknown, with no retry. -/
theorem createImageStreamMapping_streamMissing_spec (nspace isName : String)
    (w : MappingWorld)
    (h : classifyFirstCreate isName w.firstCreate = FirstCreateClass.streamMissing) :
    (provisionOkB w.provision = true →
      CreateImageStreamMapping nspace isName w =
        ((match w.secondCreate with
          | none => MappingOutcome.ok
          | some e =>
            if isQuotaExceeded e then MappingOutcome.err ISError.forbidden
            else MappingOutcome.err ISError.unknown),
         [CallEvent.createMapping, CallEvent.createStream nspace isName,
          CallEvent.cacheStream isName, CallEvent.createMapping])) ∧
    (provisionDeniedB w.provision = true →
      CreateImageStreamMapping nspace isName w =
        (MappingOutcome.err ISError.forbidden,
         [CallEvent.createMapping, CallEvent.createStream nspace isName])) ∧
    (provisionOkB w.provision = false → provisionDeniedB w.provision = false →
      CreateImageStreamMapping nspace isName w =
        (MappingOutcome.err ISError.unknown,
         [CallEvent.createMapping, CallEvent.createStream nspace isName])) := by
  cases hp : w.provision with
  | none =>
    refine ⟨?_, ?_, ?_⟩
    · intro _
      cases hs : w.secondCreate <;>
        simp [CreateImageStreamMapping, h, hp, provisionRetry, retryAfterProvision, hs]
    · intro hden
      simp [provisionDeniedB] at hden
    · intro hok _
      simp [provisionOkB] at hok
  | some e =>
    refine ⟨?_, ?_, ?_⟩
    · intro hok
      have hcond : (isAlreadyExistsErr e || isConflictErr e) = true := hok
      cases hs : w.secondCreate <;>
        simp [CreateImageStreamMapping, h, hp, provisionRetry, retryAfterProvision,
          hcond, hs]
    · intro hden
      have hcond : (!(isAlreadyExistsErr e || isConflictErr e) &&
          (isForbiddenErr e || isUnauthorizedErr e || isQuotaExceeded e)) = true := hden
      rw [Bool.and_eq_true] at hcond
      obtain ⟨hn, hd2⟩ := hcond
      rw [Bool.not_eq_true'] at hn
      simp [CreateImageStreamMapping, h, hp, provisionRetry, hn, hd2]
    · intro hok hden
      have hnok : (isAlreadyExistsErr e || isConflictErr e) = false := hok
      have hnden : (!(isAlreadyExistsErr e || isConflictErr e) &&
          (isForbiddenErr e || isUnauthorizedErr e || isQuotaExceeded e)) = false := hden
      rw [hnok] at hnden
      simp only [Bool.not_false, Bool.true_and] at hnden
      simp [CreateImageStreamMapping, h, hp, provisionRetry, hnok, hnden]

/-- Witness for C2: the witness world provisions once, injects the cache and
retries once, ending in success with the full four-call trace. -/
theorem createImageStreamMapping_streamMissing_spec_witness :
    CreateImageStreamMapping "ns" "app" witnessMappingWorld =
      (MappingOutcome.ok,
       [CallEvent.createMapping, CallEvent.createStream "ns" "app",
        CallEvent.cacheStream "app", CallEvent.createMapping]) :=
  (createImageStreamMapping_streamMissing_spec "ns" "app" witnessMappingWorld
    (by decide)).1 rfl
